import Mathlib

/-!
Shallow embedding of the dualclocks application (src/main.py) and proofs
about its core logic: time-zone resolution with UTC fallback, the signed
offset-difference computation and its text formatting, the analog clock
hand-angle arithmetic, the friendly-label dictionaries, and the warning
behaviour of the per-second tick loop.

Modelling conventions:
* Python ints are `Int`/`Nat`; Python float arithmetic in the hand-angle
  formulas is embedded over `ℚ` (every operation involved — addition,
  division by 60/12, multiplication by 2π — has an exact rational meaning;
  the angles are represented in degrees, `2 * pi * x` radians = `360 * x`
  degrees).
* The zone database (`zoneinfo.ZoneInfo` plus `datetime.now(tz).utcoffset()`)
  is external to the repository; it is abstracted as a parameter
  `db : String → Option Int` giving the current UTC offset in seconds of a
  resolvable identifier, and `zoneInfoAvailable : Bool` records whether the
  `zoneinfo` import at the top of main.py succeeded.  `db name = none`
  models `ZoneInfo(name)` raising (unknown identifier or missing tz
  database).
* Python dicts built from a list of pairs are `List (String × String)` with
  last-binding-wins lookup (`dictGet`).
-/

/-- Embedding of `_resolve_tz` (main.py:93-100): returns `ZoneInfo(name)`
when the import succeeded and the lookup does not raise, else `None`
(meaning: use the UTC fallback).  The resolved zone is represented by its
current UTC offset in seconds. -/
def resolveTz (zoneInfoAvailable : Bool) (db : String → Option Int)
    (name : String) : Option Int :=
  if zoneInfoAvailable then db name else none

/-- Embedding of `_offset_seconds_for_tz` (main.py:103-114): the current UTC
offset in seconds for the given tz name, or 0 if unknown.  In the source,
`now.utcoffset()` of a resolved zone is the timedelta the db provides; the
`if off else 0` branch returns 0 exactly when the timedelta is zero, which
agrees with `int(off.total_seconds())` there, so the embedding returns the
offset directly.  The `try/except` wrapper returning 0 is captured by the
function being total. -/
def offsetSecondsForTz (zoneInfoAvailable : Bool) (db : String → Option Int)
    (tzname : String) : Int :=
  match resolveTz zoneInfoAvailable db tzname with
  | none => 0
  | some off => off

/-- Embedding of `DualClocksApp._format_signed_diff_text` (main.py:533-543). -/
def formatSignedDiffText (secondsBMinusA : Int) : String :=
  let secs := secondsBMinusA
  let sign := if secs > 0 then "+" else if secs < 0 then "-" else ""
  let a := secs.natAbs
  let hours := a / 3600
  let minutes := (a % 3600) / 60
  if minutes == 0 then
    s!"{sign}{hours} Hours"
  else
    s!"{sign}{hours} Hours {minutes} Minutes"

/-- Transcription of the SPEC's formatting rule for claim C2, written from
the spec's words: sign `+` if `signedSeconds > 0`, `-` if `< 0`, none if 0;
`hours = abs(signedSeconds) // 3600`, `minutes = (abs(signedSeconds) % 3600) // 60`;
rendered as `"{sign}{hours} Hours"` when `minutes == 0`, else
`"{sign}{hours} Hours {minutes} Minutes"`. -/
def formatSignedDiffTextSpec (signedSeconds : Int) : String :=
  let sign := if signedSeconds > 0 then "+"
    else if signedSeconds < 0 then "-" else ""
  let hours := signedSeconds.natAbs / 3600
  let minutes := (signedSeconds.natAbs % 3600) / 60
  if minutes == 0 then
    s!"{sign}{hours} Hours"
  else
    s!"{sign}{hours} Hours {minutes} Minutes"

/-- Color assigned to the center difference label (main.py:558-572). -/
inductive DiffColor where
  | green
  | red
  | dark
deriving DecidableEq, Repr

/-- The pieces of `DualClocksApp` state that `_update_diff_label` and the
city-change handlers read or write: each clock's `tzname` and `label`
properties, and the center label text, color and arrow opacity. -/
structure AppState where
  leftTzname : String
  leftLabel : String
  rightTzname : String
  rightLabel : String
  centerText : String
  centerColor : DiffColor
  arrowOpacity : ℚ
deriving DecidableEq, Repr

/-- The signed delta computed inside `_update_diff_label` (main.py:545-551):
`off_left`/`off_right` via `_offset_seconds_for_tz`, then
`delta = off_right - off_left`. -/
def updateDiffDelta (zoneInfoAvailable : Bool) (db : String → Option Int)
    (leftTz rightTz : String) : Int :=
  offsetSecondsForTz zoneInfoAvailable db rightTz
    - offsetSecondsForTz zoneInfoAvailable db leftTz

/-- Embedding of `DualClocksApp._update_diff_label` (main.py:545-572):
computes the signed delta, sets the center text to the formatted delta, and
sets color and arrow opacity from the delta's sign. -/
def updateDiffLabel (zoneInfoAvailable : Bool) (db : String → Option Int)
    (st : AppState) : AppState :=
  let offLeft := offsetSecondsForTz zoneInfoAvailable db st.leftTzname
  let offRight := offsetSecondsForTz zoneInfoAvailable db st.rightTzname
  let delta := offRight - offLeft
  let text := formatSignedDiffText delta
  if delta > 0 then
    { st with centerText := text, centerColor := DiffColor.green, arrowOpacity := 1 }
  else if delta < 0 then
    { st with centerText := text, centerColor := DiffColor.red, arrowOpacity := 1 }
  else
    { st with centerText := text, centerColor := DiffColor.dark, arrowOpacity := 0 }

/-- C1: For every pair of zone references, the offset delta's signed seconds
equals the right zone's UTC offset in seconds minus the left zone's, as
computed by `_update_diff_label`; the center text rendered by
`_update_diff_label` is the formatting of exactly that difference. -/
theorem updateDiffDelta_is_right_minus_left
    (zoneInfoAvailable : Bool) (db : String → Option Int) (st : AppState) :
    updateDiffDelta zoneInfoAvailable db st.leftTzname st.rightTzname
      = offsetSecondsForTz zoneInfoAvailable db st.rightTzname
        - offsetSecondsForTz zoneInfoAvailable db st.leftTzname
    ∧ (updateDiffLabel zoneInfoAvailable db st).centerText
      = formatSignedDiffText
          (offsetSecondsForTz zoneInfoAvailable db st.rightTzname
            - offsetSecondsForTz zoneInfoAvailable db st.leftTzname) := by
  refine ⟨rfl, ?_⟩
  unfold updateDiffLabel
  dsimp only
  split
  · rfl
  · split
    · rfl
    · rfl

/-- C2: `_format_signed_diff_text` agrees with the spec's formatting rule
(sign from the sign of the input, hours and minutes from the absolute
value, minutes suffix only when nonzero) on every integer input. -/
theorem formatSignedDiffText_eq_spec (signedSeconds : Int) :
    formatSignedDiffText signedSeconds = formatSignedDiffTextSpec signedSeconds := by
  rfl

/-- C3: zone resolution never fails the caller: `_offset_seconds_for_tz` is
total (it returns an integer for every identifier and every database state),
and whenever the identifier does not resolve — `ZoneInfo` lookup raising, or
the `zoneinfo` module being unavailable — it returns the UTC fallback 0. -/
theorem offsetSecondsForTz_fallback_utc
    (zoneInfoAvailable : Bool) (db : String → Option Int) (tzname : String)
    (h : db tzname = none) :
    offsetSecondsForTz zoneInfoAvailable db tzname = 0 := by
  unfold offsetSecondsForTz resolveTz
  cases zoneInfoAvailable <;> simp [h]

/-- Witness for C3: the constantly-failing database (no tz data installed)
with an unresolvable identifier yields offset 0. -/
theorem offsetSecondsForTz_fallback_utc_witness :
    (fun _ : String => (none : Option Int)) "Not/A_Zone" = none
    ∧ offsetSecondsForTz true (fun _ => none) "Not/A_Zone" = 0 :=
  ⟨rfl, offsetSecondsForTz_fallback_utc true (fun _ => none) "Not/A_Zone" rfl⟩

/-- C7: the offset-delta computation is antisymmetric in its two zones. -/
theorem updateDiffDelta_antisymm
    (zoneInfoAvailable : Bool) (db : String → Option Int) (a b : String) :
    updateDiffDelta zoneInfoAvailable db a b
      = -updateDiffDelta zoneInfoAvailable db b a := by
  unfold updateDiffDelta
  ring

/-- Embedding of the `self.second` property set by `AnalogClock._update_time`
(main.py:379): `self.second = now.second`. -/
def secondProp (s : ℕ) : ℚ := (s : ℚ)

/-- Embedding of the `self.minute` property set by `AnalogClock._update_time`
(main.py:380): `self.minute = now.minute + self.second / 60.0`. -/
def minuteProp (m s : ℕ) : ℚ := (m : ℚ) + secondProp s / 60

/-- Embedding of the `self.hour` property set by `AnalogClock._update_time`
(main.py:381): `self.hour = (now.hour % 12) + self.minute / 60.0`. -/
def hourProp (h m s : ℕ) : ℚ := ((h % 12 : ℕ) : ℚ) + minuteProp m s / 60

/-- Degree measure of the second-hand angle computed by
`AnalogClock._update_hands` (main.py:394): the source computes
`a_s = 2 * pi * (self.second / 60.0)` radians, which is `360 * (second / 60)`
degrees; 0 at 12-o'clock, clockwise. -/
def secondAngleDeg (s : ℕ) : ℚ := 360 * (secondProp s / 60)

/-- Degree measure of the minute-hand angle computed by
`AnalogClock._update_hands` (main.py:393): `a_m = 2 * pi * (self.minute / 60.0)`
radians = `360 * (minute / 60)` degrees. -/
def minuteAngleDeg (m s : ℕ) : ℚ := 360 * (minuteProp m s / 60)

/-- Degree measure of the hour-hand angle computed by
`AnalogClock._update_hands` (main.py:392): `a_h = 2 * pi * (self.hour / 12.0)`
radians = `360 * (hour / 12)` degrees. -/
def hourAngleDeg (h m s : ℕ) : ℚ := 360 * (hourProp h m s / 12)

/-- C4: for every wall-clock instant with hour `h`, minute `m`, second `s`,
the update pipeline (`_update_time` setting second/minute/hour, then
`_update_hands` converting them to angles) yields, in degrees:
`secondAngleDeg = s * 6`, `minuteAngleDeg = (m + s/60) * 6`, and
`hourAngleDeg = ((h mod 12) + (m + s/60)/60) * 30`. -/
theorem handAngles_formulas (h m s : ℕ) :
    secondAngleDeg s = (s : ℚ) * 6
    ∧ minuteAngleDeg m s = ((m : ℚ) + (s : ℚ) / 60) * 6
    ∧ hourAngleDeg h m s
        = (((h % 12 : ℕ) : ℚ) + ((m : ℚ) + (s : ℚ) / 60) / 60) * 30 := by
  simp only [secondAngleDeg, minuteAngleDeg, hourAngleDeg, hourProp, minuteProp,
    secondProp]
  refine ⟨by ring, by ring, by ring⟩

/-- C5: over the whole 24-hour sweep (`h < 24`, `m < 60`, `s < 60`) each of
the three hand angles lies in `[0, 360)`, and at midnight (`h = 0`) the
hour angle lies in `[0, 30)`. -/
theorem handAngles_in_range (h m s : ℕ) (hh : h < 24) (hm : m < 60) (hs : s < 60) :
    (0 ≤ secondAngleDeg s ∧ secondAngleDeg s < 360)
    ∧ (0 ≤ minuteAngleDeg m s ∧ minuteAngleDeg m s < 360)
    ∧ (0 ≤ hourAngleDeg h m s ∧ hourAngleDeg h m s < 360)
    ∧ (h = 0 → 0 ≤ hourAngleDeg h m s ∧ hourAngleDeg h m s < 30) := by
  have hs59 : (s : ℚ) ≤ 59 := by exact_mod_cast Nat.lt_succ_iff.mp hs
  have hm59 : (m : ℚ) ≤ 59 := by exact_mod_cast Nat.lt_succ_iff.mp hm
  have hs0 : (0 : ℚ) ≤ (s : ℚ) := Nat.cast_nonneg s
  have hm0 : (0 : ℚ) ≤ (m : ℚ) := Nat.cast_nonneg m
  have hh11 : ((h % 12 : ℕ) : ℚ) ≤ 11 := by
    exact_mod_cast Nat.lt_succ_iff.mp (Nat.mod_lt h (by norm_num))
  have hh0 : (0 : ℚ) ≤ ((h % 12 : ℕ) : ℚ) := Nat.cast_nonneg _
  simp only [secondAngleDeg, minuteAngleDeg, hourAngleDeg, hourProp, minuteProp,
    secondProp]
  refine ⟨⟨by positivity, by linarith⟩, ⟨by positivity, by linarith⟩,
    ⟨by positivity, by linarith⟩, ?_⟩
  intro h0
  subst h0
  norm_num
  constructor
  · positivity
  · linarith

/-- Witness for C5: the last second of the day, 23:59:59, satisfies the
hypotheses and the range conclusions. -/
theorem handAngles_in_range_witness :
    23 < 24 ∧ 59 < 60 ∧ 59 < 60
    ∧ ((0 ≤ secondAngleDeg 59 ∧ secondAngleDeg 59 < 360)
        ∧ (0 ≤ minuteAngleDeg 59 59 ∧ minuteAngleDeg 59 59 < 360)
        ∧ (0 ≤ hourAngleDeg 23 59 59 ∧ hourAngleDeg 23 59 59 < 360)
        ∧ (23 = 0 → 0 ≤ hourAngleDeg 23 59 59 ∧ hourAngleDeg 23 59 59 < 30)) :=
  ⟨by norm_num, by norm_num, by norm_num,
    handAngles_in_range 23 59 59 (by norm_num) (by norm_num) (by norm_num)⟩

/-- C8: at 00:00:00 all three hand angles are 0; at 06:30:00 the hour angle
is 195 degrees and the minute angle is 180 degrees. -/
theorem handAngles_at_midnight_and_0630 :
    hourAngleDeg 0 0 0 = 0
    ∧ minuteAngleDeg 0 0 = 0
    ∧ secondAngleDeg 0 = 0
    ∧ hourAngleDeg 6 30 0 = 195
    ∧ minuteAngleDeg 30 0 = 180 := by
  simp only [secondAngleDeg, minuteAngleDeg, hourAngleDeg, hourProp, minuteProp,
    secondProp]
  norm_num

/-- The curated tuple `COMMON_TZS` (main.py:28-51), in source order. -/
def COMMON_TZS : List String :=
  ["America/Los_Angeles", "America/Denver", "America/Chicago", "America/New_York",
   "America/Phoenix", "America/Anchorage", "America/Adak", "Pacific/Honolulu",
   "America/Tijuana", "America/Mexico_City", "America/Bogota", "America/Lima",
   "America/Caracas", "America/Santiago", "America/Argentina/Buenos_Aires",
   "America/Sao_Paulo",
   "Europe/London", "Europe/Dublin", "Europe/Lisbon", "Europe/Madrid",
   "Europe/Paris", "Europe/Berlin", "Europe/Rome", "Europe/Zurich",
   "Europe/Amsterdam", "Europe/Stockholm", "Europe/Copenhagen",
   "Europe/Warsaw", "Europe/Athens", "Europe/Helsinki",
   "Europe/Bucharest", "Europe/Moscow",
   "Africa/Casablanca", "Africa/Accra", "Africa/Lagos", "Africa/Johannesburg",
   "Africa/Nairobi",
   "Asia/Jerusalem", "Asia/Dubai", "Asia/Tehran", "Asia/Karachi", "Asia/Kolkata",
   "Asia/Dhaka", "Asia/Bangkok", "Asia/Singapore", "Asia/Hong_Kong",
   "Asia/Shanghai", "Asia/Tokyo", "Asia/Seoul",
   "Australia/Perth", "Australia/Adelaide", "Australia/Sydney",
   "Pacific/Auckland"]

/-- Character-list splitter used to embed Python's `str.split("/")`; defined
by structural recursion so that it reduces in the kernel (the library's
`String.splitOn` is defined by well-founded recursion on positions). -/
def splitOnChar (c : Char) : List Char → List (List Char)
  | [] => [[]]
  | x :: xs =>
    let rest := splitOnChar c xs
    if x == c then [] :: rest
    else
      match rest with
      | [] => [[x]]
      | y :: ys => (x :: y) :: ys

/-- Embedding of Python's `tz.split("/")`. -/
def splitOnSlash (s : String) : List String :=
  (splitOnChar '/' s.data).map (fun cs => String.mk cs)

/-- Embedding of Python's `.replace("_", " ")`: the pattern and replacement
are single characters, so the replacement is character-wise. -/
def replaceUnderscore (s : String) : String :=
  String.mk (s.data.map (fun c => if c == '_' then ' ' else c))

/-- Embedding of `friendly_label_from_tz` (main.py:53-58): last segment of
the identifier, underscores made spaces; "UTC" for the empty name. -/
def friendly_label_from_tz (tzname : String) : String :=
  if tzname == "" then "UTC"
  else replaceUnderscore ((splitOnSlash tzname).getLastD "")

/-- The `entries` list built by `build_friendly_lists` (main.py:66-71):
`(tz, city, region)` with `city = parts[-1]` and `region = parts[-2]` when
the identifier has more than one segment, both with underscores made
spaces. -/
def tzEntries (tzs : List String) : List (String × String × String) :=
  tzs.map (fun tz =>
    let parts := splitOnSlash tz
    let city := replaceUnderscore (parts.getLastD "")
    let region :=
      if parts.length > 1 then replaceUnderscore (parts.getD (parts.length - 2) "")
      else ""
    (tz, city, region))

/-- The `counts` dictionary of `build_friendly_lists` (main.py:74-76), read
at one city: the number of entries whose city equals it. -/
def cityCount (es : List (String × String × String)) (city : String) : Nat :=
  es.countP (fun e => e.2.1 == city)

/-- The `items` list of `build_friendly_lists` (main.py:79-82): each tz
paired with its friendly label, `"City (Region)"` when the city name occurs
more than once and the region is nonempty, else the city alone. -/
def friendlyItems (tzs : List String) : List (String × String) :=
  let es := tzEntries tzs
  es.map (fun e =>
    let city := e.2.1
    let region := e.2.2
    let label := if cityCount es city > 1 && region != "" then
        s!"{city} ({region})"
      else city
    (e.1, label))

/-- Lookup in a Python dict built from a list of key-value pairs: the last
binding of a key wins; `none` models `dict.get` returning `None`. -/
def dictGet (kvs : List (String × String)) (k : String) : Option String :=
  (kvs.reverse.find? (fun p => p.fst == k)).map Prod.snd

/-- The module-level `TZ_TO_FRIENDLY` dict (main.py:84, 90), as its
key-value pair list. -/
def TZ_TO_FRIENDLY : List (String × String) :=
  friendlyItems COMMON_TZS

/-- The module-level `FRIENDLY_TO_TZ` dict (main.py:85, 90), as its
key-value pair list. -/
def FRIENDLY_TO_TZ : List (String × String) :=
  (friendlyItems COMMON_TZS).map (fun p => (p.2, p.1))

/-- The module-level `FRIENDLY_VALUES` tuple (main.py:86, 90). -/
def FRIENDLY_VALUES : List String :=
  (friendlyItems COMMON_TZS).map Prod.snd

/-- C9: the friendly-label mapping round-trips on every entry of
`COMMON_TZS` (`FRIENDLY_TO_TZ[TZ_TO_FRIENDLY[tz]] == tz`), and the labels
produced by `build_friendly_lists` are pairwise distinct. -/
theorem friendly_lists_round_trip :
    (∀ tz ∈ COMMON_TZS,
      dictGet FRIENDLY_TO_TZ ((dictGet TZ_TO_FRIENDLY tz).getD "") = some tz)
    ∧ FRIENDLY_VALUES.Nodup := by
  decide

/-- Witness for C9: the round trip applied to the concrete member
"America/Los_Angeles" of `COMMON_TZS`. -/
theorem friendly_lists_round_trip_witness :
    dictGet FRIENDLY_TO_TZ ((dictGet TZ_TO_FRIENDLY "America/Los_Angeles").getD "")
      = some "America/Los_Angeles" :=
  friendly_lists_round_trip.1 "America/Los_Angeles" (by decide)

/-- Embedding of `DualClocksApp._on_left_city_change` (main.py:517-523):
look the friendly label up in `FRIENDLY_TO_TZ`; on a falsy result (`None`
or the empty string) return with no change, otherwise set the left clock's
`tzname` and `label` and refresh the diff label. -/
def onLeftCityChange (zoneInfoAvailable : Bool) (db : String → Option Int)
    (st : AppState) (friendlyLabel : String) : AppState :=
  match dictGet FRIENDLY_TO_TZ friendlyLabel with
  | none => st
  | some tz =>
    if tz == "" then st
    else
      updateDiffLabel zoneInfoAvailable db
        { st with leftTzname := tz, leftLabel := friendlyLabel }

/-- Embedding of `DualClocksApp._on_right_city_change` (main.py:525-531). -/
def onRightCityChange (zoneInfoAvailable : Bool) (db : String → Option Int)
    (st : AppState) (friendlyLabel : String) : AppState :=
  match dictGet FRIENDLY_TO_TZ friendlyLabel with
  | none => st
  | some tz =>
    if tz == "" then st
    else
      updateDiffLabel zoneInfoAvailable db
        { st with rightTzname := tz, rightLabel := friendlyLabel }

/-- C10: for a friendly label not present in `FRIENDLY_TO_TZ`, both
city-change handlers return without mutating any state — in particular the
clocks' `tzname` and `label` fields are unchanged. -/
theorem cityChange_unknown_label_noop
    (zoneInfoAvailable : Bool) (db : String → Option Int)
    (st : AppState) (friendlyLabel : String)
    (h : dictGet FRIENDLY_TO_TZ friendlyLabel = none) :
    onLeftCityChange zoneInfoAvailable db st friendlyLabel = st
    ∧ onRightCityChange zoneInfoAvailable db st friendlyLabel = st := by
  unfold onLeftCityChange onRightCityChange
  rw [h]
  exact ⟨rfl, rfl⟩

/-- Witness for C10: the label "Nowhere City" is not a key of
`FRIENDLY_TO_TZ`, and both handlers leave a concrete state unchanged. -/
theorem cityChange_unknown_label_noop_witness :
    dictGet FRIENDLY_TO_TZ "Nowhere City" = none
    ∧ (onLeftCityChange true (fun _ => some 0)
        { leftTzname := "America/Los_Angeles", leftLabel := "San Francisco",
          rightTzname := "Europe/London", rightLabel := "London",
          centerText := "", centerColor := DiffColor.green, arrowOpacity := 1 }
        "Nowhere City"
      = { leftTzname := "America/Los_Angeles", leftLabel := "San Francisco",
          rightTzname := "Europe/London", rightLabel := "London",
          centerText := "", centerColor := DiffColor.green, arrowOpacity := 1 })
    ∧ (onRightCityChange true (fun _ => some 0)
        { leftTzname := "America/Los_Angeles", leftLabel := "San Francisco",
          rightTzname := "Europe/London", rightLabel := "London",
          centerText := "", centerColor := DiffColor.green, arrowOpacity := 1 }
        "Nowhere City"
      = { leftTzname := "America/Los_Angeles", leftLabel := "San Francisco",
          rightTzname := "Europe/London", rightLabel := "London",
          centerText := "", centerColor := DiffColor.green, arrowOpacity := 1 }) :=
  ⟨by decide,
    (cityChange_unknown_label_noop true (fun _ => some 0) _ "Nowhere City" (by decide)).1,
    (cityChange_unknown_label_noop true (fun _ => some 0) _ "Nowhere City" (by decide)).2⟩

/-- Per-clock state relevant to the warning behaviour: the `tzname`
property, the cached resolution `self._tz` (set in `__init__` and
`on_tzname`), and the `_warned_tz` once-only flag (main.py:211, 275,
351-353). -/
structure ClockState where
  tzname : String
  tz : Option Int
  warnedTz : Bool
deriving DecidableEq, Repr

/-- Warnings logged by one call of `_resolve_tz` (main.py:93-100): exactly
one when the `zoneinfo` module is importable but `ZoneInfo(name)` raises;
none when the lookup succeeds or the module is unavailable (then the
function returns `None` silently). -/
def resolveTzWarnings (zoneInfoAvailable : Bool) (db : String → Option Int)
    (name : String) : Nat :=
  if zoneInfoAvailable then
    match db name with
    | none => 1
    | some _ => 0
  else 0

/-- Warnings logged by one call of `AnalogClock._update_time`
(main.py:361-376): one UTC-fallback warning when the cached `self._tz` is
`None` and `_warned_tz` is not yet set. -/
def updateTimeWarnings (c : ClockState) : Nat :=
  match c.tz with
  | some _ => 0
  | none => if c.warnedTz then 0 else 1

/-- State change of one call of `AnalogClock._update_time`: when the cached
`self._tz` is `None` the flag `_warned_tz` is set; nothing else relevant
changes (main.py:363-371). -/
def updateTimeStep (c : ClockState) : ClockState :=
  match c.tz with
  | some _ => c
  | none => { c with warnedTz := true }

/-- Warnings attributable to one clock's identifier during one per-second
tick of the running app: the scheduled `_update_time` of that clock
(main.py:278) plus the `_resolve_tz` call made for that identifier by the
scheduled `_update_diff_label` (main.py:512, 545-548) through
`_offset_seconds_for_tz`. -/
def clockTickWarnings (zoneInfoAvailable : Bool) (db : String → Option Int)
    (c : ClockState) : Nat :=
  updateTimeWarnings c + resolveTzWarnings zoneInfoAvailable db c.tzname

/-- Total warnings attributable to one clock's (unchanged) identifier over
`n` consecutive per-second ticks. -/
def clockWarningsOverTicks (zoneInfoAvailable : Bool) (db : String → Option Int)
    (c : ClockState) : Nat → Nat
  | 0 => 0
  | n + 1 =>
    clockTickWarnings zoneInfoAvailable db c
      + clockWarningsOverTicks zoneInfoAvailable db (updateTimeStep c) n

/-- Counterexample to C6: with the `zoneinfo` module importable but the
time-zone database missing (every lookup raises), the default left clock's
identifier "America/Los_Angeles" stays unresolvable and unchanged, yet two
consecutive ticks log three warnings for it — one UTC-fallback warning from
`_update_time` plus one `_resolve_tz` warning from `_update_diff_label` on
every tick — so more than one warning is logged for the same distinct
failing identifier. -/
theorem warnings_not_once_per_identifier :
    clockWarningsOverTicks true (fun _ => none)
      { tzname := "America/Los_Angeles",
        tz := resolveTz true (fun _ => none) "America/Los_Angeles",
        warnedTz := false } 2 = 3
    ∧ 1 < clockWarningsOverTicks true (fun _ => none)
      { tzname := "America/Los_Angeles",
        tz := resolveTz true (fun _ => none) "America/Los_Angeles",
        warnedTz := false } 2 := by
  exact ⟨rfl, by decide⟩

/-- C6 amended: the once-per-identifier guarantee holds exactly for the
UTC-fallback warning of `_update_time`, which is guarded by `_warned_tz`;
so when the `zoneinfo` module is unavailable (`_resolve_tz` is then silent)
at most one warning is logged for a clock's identifier over any number of
ticks until the identifier is changed. -/
theorem warnings_once_when_zoneinfo_unavailable
    (db : String → Option Int) (c : ClockState) (n : Nat) :
    clockWarningsOverTicks false db c n ≤ 1 := by
  induction n generalizing c with
  | zero => simp [clockWarningsOverTicks]
  | succ n ih =>
    have hstep : ∀ c' : ClockState,
        clockTickWarnings false db c' = updateTimeWarnings c' := by
      intro c'
      simp [clockTickWarnings, resolveTzWarnings]
    rw [clockWarningsOverTicks, hstep]
    rcases htz : c.tz with _ | off
    · rcases hw : c.warnedTz with _ | _
      · have hafter : ∀ m : Nat,
            clockWarningsOverTicks false db (updateTimeStep c) m = 0 := by
          intro m
          induction m with
          | zero => rfl
          | succ m ihm =>
            rw [clockWarningsOverTicks, hstep]
            have h1 : updateTimeStep c = { c with warnedTz := true } := by
              simp [updateTimeStep, htz]
            have h2 : updateTimeStep (updateTimeStep c) = updateTimeStep c := by
              simp [h1, updateTimeStep, htz]
            rw [h2, ihm, h1]
            simp [updateTimeWarnings, htz]
        rw [hafter n]
        simp [updateTimeWarnings, htz, hw]
      · have h1 : updateTimeStep c = { c with warnedTz := true } := by
          simp [updateTimeStep, htz]
        have := ih (updateTimeStep c)
        have hz : updateTimeWarnings c = 0 := by
          simp [updateTimeWarnings, htz, hw]
        omega
    · have h1 : updateTimeStep c = c := by
        simp [updateTimeStep, htz]
      have := ih (updateTimeStep c)
      have hz : updateTimeWarnings c = 0 := by
        simp [updateTimeWarnings, htz]
      omega
